import Mathlib

/-!
Shallow embedding of `app.py` (Tiliter Slack bot), a Flask webhook
service.  Its handlers are embedded as pure Lean functions:
outbound HTTP calls are represented by oracle arguments (the response
the network would have delivered) and by an explicit `Effect` trace of
the calls the handler issues (Slack notifications, image downloads,
inference posts); the Redis store is an association list of string keys
to string values, and the `ex=3600` expiry of the warned flag is not
advanced in time, so every statement about it reads "within the
cooldown window"; the module-level `processed_event_ids` set is a list
of `Option String` (the payload may lack an `event_id`, in which case
Python stores `None`); the HMAC-SHA256 primitive of the
`hmac`/`hashlib` libraries is an abstract parameter
`hm : String → String → String` (secret, message to hex digest), since
the repository only ever composes it, never computes it; Python
truthiness of store lookups (`if not redis.get(...)`, empty strings) is
modelled explicitly where the code relies on it.
-/

/-! ## Definitions -/

/-- Python renders `None` as the string "None" inside f-strings; every
key built with an f-string goes through this conversion. -/
def optStr : Option String → String
  | some s => s
  | none => "None"

/-- redis.get: first binding of the key, if any. -/
def redisGet (m : List (String × String)) (k : String) : Option String :=
  (m.find? (fun q => q.1 == k)).map (fun q => q.2)

/-- redis.set: bind the key, shadowing any previous binding. -/
def mapSet (m : List (String × String)) (k v : String) : List (String × String) :=
  (k, v) :: m.filter (fun q => q.1 != k)

/-- redis.delete: drop every binding of the key. -/
def mapDel (m : List (String × String)) (k : String) : List (String × String) :=
  m.filter (fun q => q.1 != k)

/-- Python truthiness of a redis lookup result: `None` and the empty
string are falsy, any other string is truthy. -/
def redisTruthy : Option String → Bool
  | none => false
  | some v => v != ""

/-- Inputs to `verify_slack_request`: the abstract HMAC-SHA256 hex
primitive, the signing secret, the current clock, and the request's
timestamp header, raw body and signature header. -/
structure VerifyInput where
  hm : String → String → String
  secret : String
  now : Int
  timestamp : Int
  body : String
  signature : String

/-- The literal string `"v0:" + timestamp + ":" + body` the code signs. -/
def sigBasestring (timestamp : Int) (body : String) : String :=
  "v0:" ++ toString timestamp ++ ":" ++ body

/-- The locally computed signature `"v0=" + hexdigest`. -/
def computeSignature (hm : String → String → String) (secret : String)
    (timestamp : Int) (body : String) : String :=
  "v0=" ++ hm secret (sigBasestring timestamp body)

/-- verify_slack_request: `none` means the request passed; `some (msg, 400)`
is the `abort(400, msg)` the code raises.  The timestamp window check
runs first; only then is the signature computed and compared
(`hmac.compare_digest` is equality in constant time). -/
def verify_slack_request (v : VerifyInput) : Option (String × Nat) :=
  if (v.now - v.timestamp).natAbs > 60 * 5 then
    some ("Invalid request timestamp.", 400)
  else if computeSignature v.hm v.secret v.timestamp v.body = v.signature then
    none
  else
    some ("Invalid Slack signature.", 400)

/-- Char-list prefix test. -/
def listPrefixOf : List Char → List Char → Bool
  | [], _ => true
  | _ :: _, [] => false
  | a :: as, b :: bs => a == b && listPrefixOf as bs

/-- Char-list substring test: the needle occurs at some position. -/
def hasSubLst (needle : List Char) : List Char → Bool
  | [] => needle.isEmpty
  | c :: rest => listPrefixOf needle (c :: rest) || hasSubLst needle rest

/-- String containment: `sub` occurs contiguously inside `s`. -/
def strContains (s sub : String) : Bool :=
  hasSubLst sub.data s.data

/-- A JSON-ish value, enough to model the parsed Tiliter response. -/
inductive JVal where
  | str (s : String)
  | num (n : Int)
  | null
  | arr (elems : List JVal)
  | obj (fields : List (String × JVal))

/-- dict lookup: first binding of the key, if any. -/
def jLookup (fs : List (String × JVal)) (k : String) : Option JVal :=
  (fs.find? (fun q => q.1 == k)).map (fun q => q.2)

mutual

/-- Python repr of a JSON value (used for values nested in containers). -/
def pyRepr : JVal → String
  | JVal.str s => "\x27" ++ s ++ "\x27"
  | JVal.num n => toString n
  | JVal.null => "None"
  | JVal.arr xs => "[" ++ String.intercalate ", " (pyReprList xs) ++ "]"
  | JVal.obj fs => "\x7b" ++ String.intercalate ", " (pyReprFields fs) ++ "\x7d"

def pyReprList : List JVal → List String
  | [] => []
  | v :: vs => pyRepr v :: pyReprList vs

def pyReprFields : List (String × JVal) → List String
  | [] => []
  | (k, v) :: fs => ("\x27" ++ k ++ "\x27: " ++ pyRepr v) :: pyReprFields fs

end

/-- Python str() of a JSON value, as an f-string renders it. -/
def pyStr : JVal → String
  | JVal.str s => s
  | v => pyRepr v

/-- `result.get(k, default)` followed by f-string rendering. -/
def getOr (fs : List (String × JVal)) (k dflt : String) : String :=
  match jLookup fs k with
  | some v => pyStr v
  | none => dflt

/-- Python truthiness of a JSON value (`if not items`). -/
def jFalsy : JVal → Bool
  | JVal.str s => s == ""
  | JVal.num n => n == 0
  | JVal.null => true
  | JVal.arr xs => xs.isEmpty
  | JVal.obj fs => fs.isEmpty

/-- One line of the items listing; a non-dict item raises
(`item.get` does not exist), which the caller catches. -/
def renderItem (currency : String) : JVal → Except Unit String
  | JVal.obj fs =>
    Except.ok ("• " ++ getOr fs "name" "Unnamed" ++ " — " ++ getOr fs "price" "N/A" ++ currency)
  | _ => Except.error ()

def renderItemList (currency : String) : List JVal → Except Unit (List String)
  | [] => Except.ok []
  | x :: xs =>
    match renderItem currency x, renderItemList currency xs with
    | Except.ok l, Except.ok ls => Except.ok (l :: ls)
    | _, _ => Except.error ()

/-- The `item_lines` computation: a falsy `items` renders the
placeholder; a truthy non-list raises when iterated over dict-less
elements. -/
def renderItems (itemsVal : JVal) (currency : String) : Except Unit String :=
  if jFalsy itemsVal then Except.ok "_No items detected._"
  else
    match itemsVal with
    | JVal.arr xs => (renderItemList currency xs).map (fun ls => String.intercalate "\n" ls)
    | _ => Except.error ()

/-- The receipt-template body of the `try` block in `handle_image`
(after `result` has been extracted): field projections with defaults
into the fixed template.  `Except.error` stands for any exception the
surrounding `except` catches. -/
def formatReceipt : JVal → Except Unit String
  | JVal.obj fs =>
    let merchant := getOr fs "merchant" "Unknown"
    let total := getOr fs "total" "N/A"
    let date := getOr fs "date" "N/A"
    let address := getOr fs "address" ""
    let currency := getOr fs "currency" ""
    let itemsVal := (jLookup fs "items").getD (JVal.arr [])
    (renderItems itemsVal currency).map (fun item_lines =>
      ":receipt: *Receipt Details:*\n" ++
      "- Merchant: *" ++ merchant ++ "*\n" ++
      "- Date: *" ++ date ++ "*\n" ++
      "- Total: *" ++ total ++ currency ++ "*\n" ++
      "- Address: " ++ address ++ "\n\n" ++
      ":shopping_trolley: *Items:*\n" ++ item_lines)
  | _ => Except.error ()

/-- The base64 alphabet. -/
def b64Char (n : Nat) : Char :=
  "ABCDEFGHIJKLMNOPQRSTUVWXYZabcdefghijklmnopqrstuvwxyz0123456789+/".data.getD n '='

/-- base64.b64encode over a byte list. -/
def base64Encode : List Nat → String
  | [] => ""
  | [a] =>
    String.mk [b64Char (a / 4), b64Char (a % 4 * 16), '=', '=']
  | [a, b] =>
    String.mk [b64Char (a / 4), b64Char (a % 4 * 16 + b / 16), b64Char (b % 16 * 4), '=']
  | a :: b :: c :: rest =>
    String.mk [b64Char (a / 4), b64Char (a % 4 * 16 + b / 16),
      b64Char (b % 16 * 4 + c / 64), b64Char (c % 64)] ++ base64Encode rest

/-- The fixed inference endpoint of the source. -/
def TILITER_URL : String :=
  "https://api.ai.vision.tiliter.com/api/v1/inference/receipt-processor"

/-- Outbound calls a handler issues, in order. -/
inductive Effect where
  | notify (channel ts : Option String) (message : String)
  | imageGet (url bearer : String)
  | inferPost (url payload apiKey : String)
deriving DecidableEq

/-- Response of the authenticated image download (`requests.get`). -/
structure DownloadResp where
  status : Nat
  content : List Nat

/-- Response of the inference POST: status, `.text`, the parsed
`.json()` body (`none` when parsing raises), and the rendered message
`str(e)` of whatever exception the `try` block raises, if it does. -/
structure InferResp where
  status : Nat
  text : String
  json : Option JVal
  exn : String

/-- The JSON request body `{"image_data": "data:image/jpeg;base64,..."}`. -/
def inferPayload (dl : DownloadResp) : String :=
  "\x7b\"image_data\": \"data:image/jpeg;base64," ++ base64Encode dl.content ++ "\"\x7d"

/-- handle_image: returns the reply string and the trace of outbound
calls.  It never posts to Slack itself; the caller posts the returned
string once. -/
def handle_image (image_url api_key bot_token : String)
    (dl : DownloadResp) (inf : InferResp) : String × List Effect :=
  if dl.status ≠ 200 then
    (":x: Failed to download image. Status: " ++ toString dl.status,
     [Effect.imageGet image_url bot_token])
  else
    let effs := [Effect.imageGet image_url bot_token,
      Effect.inferPost TILITER_URL (inferPayload dl) api_key]
    if inf.status ≠ 200 then
      (":x: Tiliter API error " ++ toString inf.status ++ ": " ++ inf.text, effs)
    else
      match inf.json with
      | none => (":x: Could not parse Tiliter response:\n" ++ inf.exn, effs)
      | some j =>
        match j with
        | JVal.obj fs =>
          let result := (jLookup fs "result").getD (JVal.obj [])
          match formatReceipt result with
          | Except.ok out => (out, effs)
          | Except.error _ => (":x: Could not parse Tiliter response:\n" ++ inf.exn, effs)
        | _ => (":x: Could not parse Tiliter response:\n" ++ inf.exn, effs)

/-- Mutable state of the process: the Redis map and the module-level
`processed_event_ids` set (`Option String`, since a payload without an
`event_id` deduplicates under Python's `None`). -/
structure AppState where
  redisMap : List (String × String)
  processed_event_ids : List (Option String)
deriving DecidableEq

/-- One entry of the `files` array of a message event. -/
structure FileInfo where
  mimetype : String
  url_private : String

/-- The nested `event` object (fields the code reads). The `bot_id`
flag models `"bot_id" in event`. -/
structure EventData where
  user : Option String
  type : Option String
  subtype : Option String
  bot_id : Bool
  ts : Option String
  channel : Option String
  files : List FileInfo

/-- The top-level webhook payload (fields the code reads).  A payload
with no `event` object behaves as one whose `EventData` fields are all
`none` with no files (`data.get("event", <curly>)` defaults). -/
structure EventPayload where
  type : Option String
  challenge : Option String
  team_id : Option String
  event_id : Option String
  event : EventData

/-- The warning text posted when a user has no stored API key. -/
def WARN_MESSAGE : String :=
  ":warning: You haven’t set your Tiliter API key yet.\n\nVisit https://ai.vision.tiliter.com to purchase credits, then use `/set-apikey YOUR_KEY` to activate."

/-- The per-file loop of `slack_events`: each `image/*` attachment is
downloaded, run through `handle_image`, and its reply posted to the
thread. The oracle maps an image URL to the two upstream responses. -/
def processFiles (api_key bot_token : String) (channel ts : Option String)
    (oracle : String → DownloadResp × InferResp) : List FileInfo → List Effect
  | [] => []
  | f :: rest =>
    if listPrefixOf "image/".data f.mimetype.data then
      let r := handle_image f.url_private api_key bot_token (oracle f.url_private).1 (oracle f.url_private).2
      r.2 ++ [Effect.notify channel ts r.1] ++ processFiles api_key bot_token channel ts oracle rest
    else
      processFiles api_key bot_token channel ts oracle rest

/-- Body of `slack_events` after the dedup gate has passed, running on
the state in which the event id has already been recorded.  `slackToken`
is the static fallback `SLACK_TOKEN`. -/
def handle_event (p : EventPayload) (oracle : String → DownloadResp × InferResp)
    (slackToken : String) (s1 : AppState) : (String × Nat) × AppState × List Effect :=
  let bot_token :=
    match redisGet s1.redisMap ("token:" ++ optStr p.team_id) with
    | some t => if t = "" then slackToken else t
    | none => slackToken
  let event := p.event
  if event.type = some "message" ∧ event.subtype = some "file_share" then
    if event.bot_id then
      (("Ignore bot", 200), s1, [])
    else
      match redisGet s1.redisMap ("key:" ++ optStr event.user) with
      | none =>
        let warn_key := "warned:" ++ optStr event.user ++ ":" ++ optStr event.ts
        if redisTruthy (redisGet s1.redisMap warn_key) then
          (("No API key", 200), s1, [])
        else
          (("No API key", 200),
           { s1 with redisMap := mapSet s1.redisMap warn_key "1" },
           [Effect.notify event.channel event.ts WARN_MESSAGE])
      | some api_key =>
        (("OK", 200), s1,
         processFiles api_key bot_token event.channel event.ts oracle event.files)
  else
    (("OK", 200), s1, [])

/-- slack_events: signature gate, URL-verification handshake, dedup
gate, then the event handling.  Returns the HTTP reply, the new process
state, and the trace of outbound calls. -/
def slack_events (v : VerifyInput) (p : EventPayload)
    (oracle : String → DownloadResp × InferResp) (slackToken : String)
    (s : AppState) : (String × Nat) × AppState × List Effect :=
  match verify_slack_request v with
  | some e => (e, s, [])
  | none =>
    if p.type = some "url_verification" then
      ((p.challenge.getD "", 200), s, [])
    else
      if p.event_id ∈ s.processed_event_ids then
        (("Duplicate", 200), s, [])
      else
        handle_event p oracle slackToken
          { s with processed_event_ids := p.event_id :: s.processed_event_ids }

/-- Python str.strip(): drop leading and trailing whitespace.
(Implemented over the char list so that it reduces in the kernel.) -/
def pyStrip (s : String) : String :=
  String.mk (((s.data.dropWhile Char.isWhitespace).reverse.dropWhile Char.isWhitespace).reverse)

/-- set_api_key handler: strips the text argument; an empty result is a
usage reply and no write; otherwise the stripped key is stored. -/
def set_api_key (v : VerifyInput) (user_id : Option String) (text : Option String)
    (s : AppState) : (String × Nat) × AppState :=
  match verify_slack_request v with
  | some e => (e, s)
  | none =>
    let t := pyStrip (text.getD "")
    if t = "" then
      (("Usage: /set-apikey YOUR_KEY", 200), s)
    else
      (("✅ Tiliter API key saved successfully.", 200),
       { s with redisMap := mapSet s.redisMap ("key:" ++ optStr user_id) t })

/-- get_api_key handler: a truthy stored key is echoed back verbatim in
the acknowledgment; `None` (and the unreachable empty string, falsy in
Python) reply that no key is set. -/
def get_api_key (v : VerifyInput) (user_id : Option String)
    (s : AppState) : (String × Nat) × AppState :=
  match verify_slack_request v with
  | some e => (e, s)
  | none =>
    match redisGet s.redisMap ("key:" ++ optStr user_id) with
    | some k =>
      if k = "" then (("❌ No API key set.", 200), s)
      else (("🔐 Your current API key is:\n```" ++ k ++ "```", 200), s)
    | none => (("❌ No API key set.", 200), s)

/-- delete_api_key handler: unconditionally deletes the binding. -/
def delete_api_key (v : VerifyInput) (user_id : Option String)
    (s : AppState) : (String × Nat) × AppState :=
  match verify_slack_request v with
  | some e => (e, s)
  | none =>
    (("🗑️ Tiliter API key removed.", 200),
     { s with redisMap := mapDel s.redisMap ("key:" ++ optStr user_id) })

/-- Response of the `oauth.v2.access` token exchange: HTTP status, the
truthiness of the body's `ok` field, the `team.id` and `access_token`
fields, and the raw text. -/
structure OAuthExchange where
  status : Nat
  ok : Bool
  team_id : String
  access_token : String
  text : String

/-- oauth_callback: 400 when the `code` query parameter is missing or
empty (Python falsiness of `request.args.get`), 400 when the exchange
fails, otherwise the token is stored under `token:<team id>` and the
install acknowledgment returned (Flask status 200). -/
def oauth_callback (code : Option String) (exchange : String → OAuthExchange)
    (s : AppState) : (String × Nat) × AppState :=
  match code with
  | none => (("Missing code", 400), s)
  | some c =>
    if c = "" then
      (("Missing code", 400), s)
    else
      let resp := exchange c
      if resp.status ≠ 200 ∨ resp.ok = false then
        (("OAuth failed", 400), s)
      else
        (("App installed successfully! You can now use the Tiliter bot in your Slack workspace.", 200),
         { s with redisMap := mapSet s.redisMap ("token:" ++ resp.team_id) resp.access_token })

/-- A concrete stand-in for the HMAC primitive: echo the message. -/
def hmFix : String → String → String := fun _ m => m

/-- A request that passes verification under `hmFix`. -/
def vFix : VerifyInput := ⟨hmFix, "sec", 0, 0, "body", "v0=v0:0:body"⟩

/-- A network oracle: downloads fail with 404, inference with 500. -/
def oracleFix : String → DownloadResp × InferResp :=
  fun _ => (⟨404, []⟩, ⟨500, "boom", none, "err"⟩)

/-- A file-share message event from user U1. -/
def eventFix : EventData :=
  ⟨some "U1", some "message", some "file_share", false, some "111.22", some "C1", []⟩

/-- An event-callback payload carrying event id Ev1. -/
def payloadFix : EventPayload :=
  ⟨some "event_callback", none, some "T1", some "Ev1", eventFix⟩

/-- A payload with no event_id field. -/
def payloadNoId : EventPayload :=
  ⟨some "event_callback", none, some "T1", none, eventFix⟩

/-- An unrelated second payload that also lacks an event_id. -/
def payloadNoId2 : EventPayload :=
  ⟨some "event_callback", none, some "T2", none,
   ⟨some "U2", some "message", some "file_share", false, some "999.99", some "C2", []⟩⟩

/-- Fresh process state: empty store, nothing seen. -/
def stateEmpty : AppState := ⟨[], []⟩

/-- State in which event id Ev1 was already handled. -/
def stateDup : AppState := ⟨[], [some "Ev1"]⟩

/-- State in which user U1 was already warned for message ts 111.22. -/
def stateWarned : AppState := ⟨[("warned:U1:111.22", "1")], []⟩

/-- The counting result of the claim, as a parsed JSON value. -/
def countingResult : JVal :=
  JVal.obj [("object_counts", JVal.obj [("apple", JVal.num 3)]), ("total_objects", JVal.num 3)]

/-- What the formatter actually renders for `countingResult`. -/
def countingFormatted : String :=
  ":receipt: *Receipt Details:*\n- Merchant: *Unknown*\n- Date: *N/A*\n- Total: *N/A*\n- Address: \n\n:shopping_trolley: *Items:*\n_No items detected._"

/-- A failing and a succeeding token exchange, for the C8 witness. -/
def exchBad : String → OAuthExchange := fun _ => ⟨500, false, "", "", "server error"⟩

def exchOk : String → OAuthExchange := fun _ => ⟨200, true, "T9", "xoxb-1", "ok"⟩

/-! ## Theorems -/

theorem redisGet_mapSet_self (m : List (String × String)) (k v : String) :
    redisGet (mapSet m k v) k = some v := by
  simp [redisGet, mapSet, List.find?]

theorem find?_filter_ne (m : List (String × String)) (k : String) :
    (m.filter (fun q => q.1 != k)).find? (fun q => q.1 == k) = none := by
  rw [List.find?_eq_none]
  intro x hx
  have hp := List.of_mem_filter hx
  simp only [bne_iff_ne, ne_eq] at hp
  simpa using hp

theorem redisGet_mapDel_self (m : List (String × String)) (k : String) :
    redisGet (mapDel m k) k = none := by
  simp [redisGet, mapDel, find?_filter_ne]

theorem listPrefixOf_append_self (n s : List Char) :
    listPrefixOf n (n ++ s) = true := by
  induction n with
  | nil => rfl
  | cons a as ih => simp [listPrefixOf, ih]

theorem hasSubLst_nil_needle (h : List Char) : hasSubLst [] h = true := by
  cases h <;> simp [hasSubLst, listPrefixOf, List.isEmpty]

theorem hasSubLst_append (pre n suf : List Char) :
    hasSubLst n (pre ++ n ++ suf) = true := by
  induction pre with
  | nil =>
    cases n with
    | nil => simpa using hasSubLst_nil_needle suf
    | cons a as =>
      show (listPrefixOf (a :: as) (a :: (as ++ suf)) ||
        hasSubLst (a :: as) (as ++ suf)) = true
      have hp := listPrefixOf_append_self (a :: as) suf
      simp only [List.cons_append] at hp
      rw [hp, Bool.true_or]
  | cons c cs ih =>
    show (listPrefixOf n (c :: (cs ++ n ++ suf)) ||
      hasSubLst n (cs ++ n ++ suf)) = true
    rw [ih, Bool.or_true]

theorem strContains_middle (a b c : String) :
    strContains (a ++ b ++ c) b = true := by
  show hasSubLst b.data ((a ++ b ++ c).data) = true
  rw [String.data_append, String.data_append]
  exact hasSubLst_append a.data b.data c.data

theorem strContains_suffix (a b : String) :
    strContains (a ++ b) b = true := by
  show hasSubLst b.data ((a ++ b).data) = true
  rw [String.data_append]
  have h := hasSubLst_append a.data b.data []
  simpa using h

theorem strAppend_assoc (a b c : String) : a ++ b ++ c = a ++ (b ++ c) := by
  apply String.ext
  simp [String.data_append]

theorem handle_event_processed (p : EventPayload) (oracle : String → DownloadResp × InferResp)
    (tok : String) (s1 : AppState) :
    (handle_event p oracle tok s1).2.1.processed_event_ids = s1.processed_event_ids := by
  unfold handle_event
  dsimp only
  split
  · split
    · rfl
    · split
      · split
        · rfl
        · rfl
      · rfl
  · rfl

theorem slack_events_marks (v : VerifyInput) (p : EventPayload)
    (oracle : String → DownloadResp × InferResp) (tok : String) (s : AppState)
    (hv : verify_slack_request v = none) (hty : p.type ≠ some "url_verification") :
    p.event_id ∈ (slack_events v p oracle tok s).2.1.processed_event_ids := by
  unfold slack_events
  rw [hv]
  dsimp only
  rw [if_neg hty]
  by_cases hmem : p.event_id ∈ s.processed_event_ids
  · rw [if_pos hmem]
    exact hmem
  · rw [if_neg hmem, handle_event_processed]
    exact List.mem_cons_self _ _

theorem slack_events_dup (v : VerifyInput) (p : EventPayload)
    (oracle : String → DownloadResp × InferResp) (tok : String) (s : AppState)
    (hv : verify_slack_request v = none) (hty : p.type ≠ some "url_verification")
    (hmem : p.event_id ∈ s.processed_event_ids) :
    slack_events v p oracle tok s = (("Duplicate", 200), s, []) := by
  unfold slack_events
  rw [hv]
  dsimp only
  rw [if_neg hty, if_pos hmem]

/-- C1: for every webhook event identifier, the events endpoint records
the identifier in `processed_event_ids`, and any delivery whose
identifier is already recorded is answered "Duplicate" with the state
unchanged and no outbound call (in particular no notifier call): at most
one reply per unique event identifier for the lifetime of the process. -/
theorem events_deduplicated_once (v : VerifyInput) (p : EventPayload)
    (oracle : String → DownloadResp × InferResp) (tok : String) (s : AppState)
    (hv : verify_slack_request v = none) (hty : p.type ≠ some "url_verification") :
    p.event_id ∈ (slack_events v p oracle tok s).2.1.processed_event_ids ∧
    (p.event_id ∈ s.processed_event_ids →
      slack_events v p oracle tok s = (("Duplicate", 200), s, [])) := by
  exact ⟨slack_events_marks v p oracle tok s hv hty,
    fun hmem => slack_events_dup v p oracle tok s hv hty hmem⟩

/-- Witness for C1 at a concrete redelivered event. -/
theorem events_deduplicated_once_witness :
    some "Ev1" ∈ (slack_events vFix payloadFix oracleFix "tok" stateDup).2.1.processed_event_ids ∧
    slack_events vFix payloadFix oracleFix "tok" stateDup = (("Duplicate", 200), stateDup, []) := by
  have h := events_deduplicated_once vFix payloadFix oracleFix "tok" stateDup rfl (by decide)
  exact ⟨h.1, h.2 (by decide)⟩

/-- C2: a request whose timestamp header deviates from the current time
by more than 300 seconds is rejected by the verifier with the timestamp
abort, regardless of the supplied signature, and the events endpoint
then returns that rejection with the state unchanged and no outbound
call: the rejection precedes any side effect. -/
theorem stale_timestamp_rejected (v : VerifyInput) (p : EventPayload)
    (oracle : String → DownloadResp × InferResp) (tok : String) (s : AppState)
    (hstale : (v.now - v.timestamp).natAbs > 300) :
    verify_slack_request v = some ("Invalid request timestamp.", 400) ∧
    slack_events v p oracle tok s = (("Invalid request timestamp.", 400), s, []) := by
  have h1 : verify_slack_request v = some ("Invalid request timestamp.", 400) := by
    unfold verify_slack_request
    rw [if_pos]
    exact hstale
  refine ⟨h1, ?_⟩
  unfold slack_events
  rw [h1]

/-- Witness for C2: a 1000-second-old request with an otherwise valid
signature is rejected. -/
theorem stale_timestamp_rejected_witness :
    verify_slack_request ⟨hmFix, "sec", 1000, 0, "body", "v0=v0:0:body"⟩ =
      some ("Invalid request timestamp.", 400) ∧
    slack_events ⟨hmFix, "sec", 1000, 0, "body", "v0=v0:0:body"⟩ payloadFix oracleFix "tok" stateEmpty =
      (("Invalid request timestamp.", 400), stateEmpty, []) := by
  exact stale_timestamp_rejected ⟨hmFix, "sec", 1000, 0, "body", "v0=v0:0:body"⟩
    payloadFix oracleFix "tok" stateEmpty (by decide)

/-- C3: with a fresh timestamp, the verifier accepts exactly when the
supplied signature equals "v0=" followed by the hex HMAC-SHA256 of
"v0:" + timestamp + ":" + body under the signing secret; and for any
altered body whose HMAC digest differs (in particular any single-byte
change, absent an HMAC collision), the previously valid signature is
rejected. -/
theorem signature_verification_exact (hm : String → String → String) (secret : String)
    (now ts : Int) (body sig : String) (hfresh : (now - ts).natAbs ≤ 300) :
    (verify_slack_request ⟨hm, secret, now, ts, body, sig⟩ = none ↔
      sig = computeSignature hm secret ts body) ∧
    (∀ body2 : String,
      hm secret (sigBasestring ts body2) ≠ hm secret (sigBasestring ts body) →
      verify_slack_request ⟨hm, secret, now, ts, body2, computeSignature hm secret ts body⟩ =
        some ("Invalid Slack signature.", 400)) := by
  have hts : ¬ ((now - ts).natAbs > 60 * 5) := by omega
  constructor
  · unfold verify_slack_request
    dsimp only
    rw [if_neg hts]
    constructor
    · intro h
      by_cases hc : computeSignature hm secret ts body = sig
      · exact hc.symm
      · rw [if_neg hc] at h
        cases h
    · intro h
      rw [if_pos h.symm]
  · intro body2 hne
    have hc : computeSignature hm secret ts body2 ≠ computeSignature hm secret ts body := by
      intro h
      apply hne
      have hd := congrArg String.data h
      rw [computeSignature, computeSignature, String.data_append, String.data_append] at hd
      exact String.ext (List.append_cancel_left hd)
    unfold verify_slack_request
    dsimp only
    rw [if_neg hts, if_neg hc]

/-- Witness for C3: under the echo HMAC, the correct signature is
accepted for body "b" and rejected for the altered body "c". -/
theorem signature_verification_exact_witness :
    verify_slack_request ⟨hmFix, "sec", 0, 0, "b", computeSignature hmFix "sec" 0 "b"⟩ = none ∧
    verify_slack_request ⟨hmFix, "sec", 0, 0, "c", computeSignature hmFix "sec" 0 "b"⟩ =
      some ("Invalid Slack signature.", 400) := by
  have h := signature_verification_exact hmFix "sec" 0 0 "b"
    (computeSignature hmFix "sec" 0 "b") (by decide)
  exact ⟨h.1.mpr rfl, h.2 "c" (by decide)⟩

/-- C4: for a freshly delivered file-share message from a user with no
stored API key, if the warned flag for the (user, message-timestamp)
pair is not yet set then exactly one warning notification is posted and
the flag is set; if the flag is already set (it lives for the cooldown
window) then no notification is posted at all, even though the
triggering event was redelivered under a new event id. -/
theorem warning_rate_limited (v : VerifyInput) (p : EventPayload)
    (oracle : String → DownloadResp × InferResp) (tok : String) (s : AppState)
    (hv : verify_slack_request v = none)
    (hty : p.type ≠ some "url_verification")
    (hnew : p.event_id ∉ s.processed_event_ids)
    (hmsg : p.event.type = some "message")
    (hsub : p.event.subtype = some "file_share")
    (hbot : p.event.bot_id = false)
    (hkey : redisGet s.redisMap ("key:" ++ optStr p.event.user) = none) :
    (redisTruthy (redisGet s.redisMap
        ("warned:" ++ optStr p.event.user ++ ":" ++ optStr p.event.ts)) = false →
      slack_events v p oracle tok s =
        (("No API key", 200),
         ⟨mapSet s.redisMap
            ("warned:" ++ optStr p.event.user ++ ":" ++ optStr p.event.ts) "1",
          p.event_id :: s.processed_event_ids⟩,
         [Effect.notify p.event.channel p.event.ts WARN_MESSAGE]) ∧
      redisGet (mapSet s.redisMap
          ("warned:" ++ optStr p.event.user ++ ":" ++ optStr p.event.ts) "1")
        ("warned:" ++ optStr p.event.user ++ ":" ++ optStr p.event.ts) = some "1") ∧
    (redisTruthy (redisGet s.redisMap
        ("warned:" ++ optStr p.event.user ++ ":" ++ optStr p.event.ts)) = true →
      slack_events v p oracle tok s =
        (("No API key", 200), ⟨s.redisMap, p.event_id :: s.processed_event_ids⟩, [])) := by
  have hbase : slack_events v p oracle tok s =
      handle_event p oracle tok ⟨s.redisMap, p.event_id :: s.processed_event_ids⟩ := by
    unfold slack_events
    rw [hv]
    dsimp only
    rw [if_neg hty, if_neg hnew]
  constructor
  · intro hflag
    constructor
    · rw [hbase]
      unfold handle_event
      dsimp only
      rw [if_pos ⟨hmsg, hsub⟩, hbot]
      simp only [Bool.false_eq_true, if_false]
      rw [hkey]
      dsimp only
      rw [hflag]
      simp
    · exact redisGet_mapSet_self _ _ _
  · intro hflag
    rw [hbase]
    unfold handle_event
    dsimp only
    rw [if_pos ⟨hmsg, hsub⟩, hbot]
    simp only [Bool.false_eq_true, if_false]
    rw [hkey]
    dsimp only
    rw [hflag]
    simp

/-- Witness for C4: the first delivery posts exactly one warning and
sets the flag; a redelivery under a fresh event id with the flag set
posts nothing. -/
theorem warning_rate_limited_witness :
    slack_events vFix payloadFix oracleFix "tok" stateEmpty =
      (("No API key", 200),
       ⟨mapSet stateEmpty.redisMap
          ("warned:" ++ optStr payloadFix.event.user ++ ":" ++ optStr payloadFix.event.ts) "1",
        some "Ev1" :: stateEmpty.processed_event_ids⟩,
       [Effect.notify payloadFix.event.channel payloadFix.event.ts WARN_MESSAGE]) ∧
    slack_events vFix payloadFix oracleFix "tok" stateWarned =
      (("No API key", 200),
       ⟨stateWarned.redisMap, some "Ev1" :: stateWarned.processed_event_ids⟩, []) := by
  have h1 := warning_rate_limited vFix payloadFix oracleFix "tok" stateEmpty
    rfl (by decide) (by decide) rfl rfl rfl rfl
  have h2 := warning_rate_limited vFix payloadFix oracleFix "tok" stateWarned
    rfl (by decide) (by decide) rfl rfl rfl (by decide)
  exact ⟨(h1.1 rfl).1, h2.2 (by decide)⟩

/-- C5: handle_image surfaces upstream failures as terminal user-visible
error strings with no retry: a non-200 download yields an error string
reporting that status with no inference POST issued, a non-200 inference
response yields an error string carrying the upstream status and body
verbatim, and handle_image itself never posts to Slack (the single error
reply is posted once by its caller). -/
theorem handle_image_upstream_errors (url key tok : String)
    (dl : DownloadResp) (inf : InferResp) :
    (dl.status ≠ 200 →
      handle_image url key tok dl inf =
        (":x: Failed to download image. Status: " ++ toString dl.status,
         [Effect.imageGet url tok]) ∧
      strContains (handle_image url key tok dl inf).1 (toString dl.status) = true) ∧
    (dl.status = 200 → inf.status ≠ 200 →
      handle_image url key tok dl inf =
        (":x: Tiliter API error " ++ toString inf.status ++ ": " ++ inf.text,
         [Effect.imageGet url tok, Effect.inferPost TILITER_URL (inferPayload dl) key]) ∧
      strContains (handle_image url key tok dl inf).1 (toString inf.status) = true ∧
      strContains (handle_image url key tok dl inf).1 inf.text = true) ∧
    (∀ c t m, Effect.notify c t m ∉ (handle_image url key tok dl inf).2) := by
  refine ⟨?_, ?_, ?_⟩
  · intro hdl
    have he : handle_image url key tok dl inf =
        (":x: Failed to download image. Status: " ++ toString dl.status,
         [Effect.imageGet url tok]) := by
      unfold handle_image
      rw [if_pos hdl]
    refine ⟨he, ?_⟩
    rw [he]
    exact strContains_suffix _ _
  · intro hdl hinf
    have he : handle_image url key tok dl inf =
        (":x: Tiliter API error " ++ toString inf.status ++ ": " ++ inf.text,
         [Effect.imageGet url tok, Effect.inferPost TILITER_URL (inferPayload dl) key]) := by
      unfold handle_image
      rw [if_neg (by simp [hdl])]
      dsimp only
      rw [if_pos hinf]
    refine ⟨he, ?_, ?_⟩
    · rw [he]
      have hm := strContains_middle ":x: Tiliter API error " (toString inf.status)
        (": " ++ inf.text)
      rw [← strAppend_assoc] at hm
      exact hm
    · rw [he]
      exact strContains_suffix _ _
  · intro c t m
    unfold handle_image
    split
    · simp
    · dsimp only
      split
      · simp
      · split
        · simp
        · split
          · split
            · simp
            · simp
          · simp

/-- Witness for C5: with a 404 download the reply reports 404 and only
the download call happened; with a 200 download and a 500 inference
reply the error carries "500" and the body "boom"; no notify effect is
ever issued by handle_image. -/
theorem handle_image_upstream_errors_witness :
    handle_image "u" "k" "t" ⟨404, []⟩ ⟨500, "boom", none, "err"⟩ =
      (":x: Failed to download image. Status: " ++ toString (404 : Nat),
       [Effect.imageGet "u" "t"]) ∧
    strContains (handle_image "u" "k" "t" ⟨200, [1]⟩ ⟨500, "boom", none, "err"⟩).1
      (toString (500 : Nat)) = true ∧
    strContains (handle_image "u" "k" "t" ⟨200, [1]⟩ ⟨500, "boom", none, "err"⟩).1
      "boom" = true ∧
    Effect.notify (some "C1") (some "1.2") "hello" ∉
      (handle_image "u" "k" "t" ⟨200, [1]⟩ ⟨500, "boom", none, "err"⟩).2 := by
  have h1 := handle_image_upstream_errors "u" "k" "t" ⟨404, []⟩ ⟨500, "boom", none, "err"⟩
  have h2 := handle_image_upstream_errors "u" "k" "t" ⟨200, [1]⟩ ⟨500, "boom", none, "err"⟩
  exact ⟨(h1.1 (by decide)).1, (h2.2.1 rfl (by decide)).2.1,
    (h2.2.1 rfl (by decide)).2.2, h2.2.2 (some "C1") (some "1.2") "hello"⟩

/-- C7 counterexample: the formatter has no counting branch; its output
on the counting result contains neither "3" nor "apple". -/
theorem counting_formatting_cex :
    formatReceipt countingResult = Except.ok countingFormatted ∧
    strContains countingFormatted "3" = false ∧
    strContains countingFormatted "apple" = false := by
  refine ⟨by rfl, by decide, by decide⟩

/-- C7 amended: the only formatter in the code is the receipt template;
on the counting result every projected field is absent, so the output is
the receipt template with Merchant *Unknown*, Date and Total *N/A*, and
the no-items placeholder — not the counting fields. -/
theorem counting_formatting_amended :
    formatReceipt countingResult = Except.ok countingFormatted ∧
    strContains countingFormatted "Unknown" = true ∧
    strContains countingFormatted "_No items detected._" = true ∧
    strContains countingFormatted "N/A" = true := by
  refine ⟨by rfl, by decide, by decide, by decide⟩

/-- C6: for every user id and every text the set operation accepts (its
stripped form nonempty), set followed immediately by get returns the
identical string the set operation stored, and delete followed by get
returns the "No API key set." absent state. -/
theorem apikey_roundtrip (v : VerifyInput) (u : Option String) (t : String)
    (s s2 : AppState)
    (hv : verify_slack_request v = none) (ht : pyStrip t ≠ "") :
    redisGet (set_api_key v u (some t) s).2.redisMap ("key:" ++ optStr u) = some (pyStrip t) ∧
    (get_api_key v u (set_api_key v u (some t) s).2).1 =
      ("🔐 Your current API key is:\n```" ++ pyStrip t ++ "```", 200) ∧
    (get_api_key v u (delete_api_key v u s2).2).1 = ("❌ No API key set.", 200) := by
  have hset : (set_api_key v u (some t) s).2 =
      { s with redisMap := mapSet s.redisMap ("key:" ++ optStr u) (pyStrip t) } := by
    unfold set_api_key
    rw [hv]
    dsimp only [Option.getD]
    rw [if_neg ht]
  have hget1 : redisGet (set_api_key v u (some t) s).2.redisMap ("key:" ++ optStr u) =
      some (pyStrip t) := by
    rw [hset]
    exact redisGet_mapSet_self _ _ _
  refine ⟨hget1, ?_, ?_⟩
  · unfold get_api_key
    rw [hv]
    dsimp only
    rw [hget1]
    dsimp only
    rw [if_neg ht]
  · have hdel : (delete_api_key v u s2).2 =
        { s2 with redisMap := mapDel s2.redisMap ("key:" ++ optStr u) } := by
      unfold delete_api_key
      rw [hv]
    unfold get_api_key
    rw [hv, hdel]
    dsimp only
    rw [redisGet_mapDel_self]

/-- Witness for C6 at user U1 and the key "  mykey  ". -/
theorem apikey_roundtrip_witness :
    redisGet (set_api_key vFix (some "U1") (some "  mykey  ") stateEmpty).2.redisMap
      ("key:" ++ optStr (some "U1")) = some (pyStrip "  mykey  ") ∧
    (get_api_key vFix (some "U1")
        (set_api_key vFix (some "U1") (some "  mykey  ") stateEmpty).2).1 =
      ("🔐 Your current API key is:\n```" ++ pyStrip "  mykey  " ++ "```", 200) ∧
    (get_api_key vFix (some "U1")
        (delete_api_key vFix (some "U1") ⟨[("key:U1", "old")], []⟩).2).1 =
      ("❌ No API key set.", 200) := by
  exact apikey_roundtrip vFix (some "U1") "  mykey  " stateEmpty
    ⟨[("key:U1", "old")], []⟩ rfl (by decide)

/-- C8: the OAuth callback returns 400 when the code parameter is
missing (or empty, which Python's falsiness folds into the same check)
and 400 when the token exchange fails; on a successful exchange the
access token is stored under the team id in the returned state and the
success acknowledgment is returned. -/
theorem oauth_callback_behavior (exchange : String → OAuthExchange) (s : AppState) :
    oauth_callback none exchange s = (("Missing code", 400), s) ∧
    oauth_callback (some "") exchange s = (("Missing code", 400), s) ∧
    (∀ c, c ≠ "" → ((exchange c).status ≠ 200 ∨ (exchange c).ok = false) →
      oauth_callback (some c) exchange s = (("OAuth failed", 400), s)) ∧
    (∀ c, c ≠ "" → (exchange c).status = 200 → (exchange c).ok = true →
      (oauth_callback (some c) exchange s).1 =
        ("App installed successfully! You can now use the Tiliter bot in your Slack workspace.", 200) ∧
      redisGet (oauth_callback (some c) exchange s).2.redisMap
        ("token:" ++ (exchange c).team_id) = some (exchange c).access_token) := by
  refine ⟨rfl, rfl, ?_, ?_⟩
  · intro c hc hfail
    unfold oauth_callback
    dsimp only
    rw [if_neg hc, if_pos hfail]
  · intro c hc hst hok
    have hcase : oauth_callback (some c) exchange s =
        (("App installed successfully! You can now use the Tiliter bot in your Slack workspace.", 200),
         { s with redisMap :=
            mapSet s.redisMap ("token:" ++ (exchange c).team_id) (exchange c).access_token }) := by
      unfold oauth_callback
      dsimp only
      rw [if_neg hc, if_neg (by simp [hst, hok])]
    rw [hcase]
    exact ⟨rfl, redisGet_mapSet_self _ _ _⟩

/-- Witness for C8: missing code, failed exchange, and a successful
exchange that persists the token under the team id. -/
theorem oauth_callback_behavior_witness :
    oauth_callback none exchOk stateEmpty = (("Missing code", 400), stateEmpty) ∧
    oauth_callback (some "abc") exchBad stateEmpty = (("OAuth failed", 400), stateEmpty) ∧
    redisGet (oauth_callback (some "abc") exchOk stateEmpty).2.redisMap
      ("token:" ++ (exchOk "abc").team_id) = some (exchOk "abc").access_token := by
  have hb := oauth_callback_behavior exchBad stateEmpty
  have ho := oauth_callback_behavior exchOk stateEmpty
  exact ⟨ho.1, hb.2.2.1 "abc" (by decide) (by decide),
    (ho.2.2.2 "abc" (by decide) rfl rfl).2⟩

/-- C9: the deduplicator records an event id before processing begins,
and a payload with no event_id is recorded under the single shared
`None` value: once one event without an event_id has been handled, every
subsequent delivery without an event_id is answered "Duplicate" with no
processing and no outbound call, even though the events are unrelated. -/
theorem missing_event_id_shared_dedupe (v1 v2 : VerifyInput) (p1 p2 : EventPayload)
    (o1 o2 : String → DownloadResp × InferResp) (t1 t2 : String) (s : AppState)
    (hv1 : verify_slack_request v1 = none) (hty1 : p1.type ≠ some "url_verification")
    (hv2 : verify_slack_request v2 = none) (hty2 : p2.type ≠ some "url_verification")
    (hid1 : p1.event_id = none) (hid2 : p2.event_id = none) :
    (none : Option String) ∈ (slack_events v1 p1 o1 t1 s).2.1.processed_event_ids ∧
    slack_events v2 p2 o2 t2 (slack_events v1 p1 o1 t1 s).2.1 =
      (("Duplicate", 200), (slack_events v1 p1 o1 t1 s).2.1, []) := by
  have h1 := slack_events_marks v1 p1 o1 t1 s hv1 hty1
  rw [hid1] at h1
  refine ⟨h1, ?_⟩
  exact slack_events_dup v2 p2 o2 t2 _ hv2 hty2 (by rw [hid2]; exact h1)

/-- Witness for C9: after one id-less event from user U1, a completely
unrelated id-less event from user U2 is dismissed as "Duplicate". -/
theorem missing_event_id_shared_dedupe_witness :
    (none : Option String) ∈
      (slack_events vFix payloadNoId oracleFix "tok" stateEmpty).2.1.processed_event_ids ∧
    slack_events vFix payloadNoId2 oracleFix "tok"
        (slack_events vFix payloadNoId oracleFix "tok" stateEmpty).2.1 =
      (("Duplicate", 200),
       (slack_events vFix payloadNoId oracleFix "tok" stateEmpty).2.1, []) := by
  exact missing_event_id_shared_dedupe vFix vFix payloadNoId payloadNoId2
    oracleFix oracleFix "tok" "tok" stateEmpty rfl (by decide) rfl (by decide) rfl rfl

/-- C10: invoking set-apikey with an empty or whitespace-only text
argument returns the usage message and leaves the state — in particular
any previously stored key — untouched. -/
theorem set_apikey_blank_noop (v : VerifyInput) (u : Option String)
    (text : Option String) (s : AppState)
    (hv : verify_slack_request v = none)
    (ht : pyStrip (text.getD "") = "") :
    set_api_key v u text s = (("Usage: /set-apikey YOUR_KEY", 200), s) := by
  unfold set_api_key
  rw [hv]
  dsimp only
  rw [if_pos ht]

/-- Witness for C10: whitespace-only text on a state holding an old key
returns usage and leaves the old key in place. -/
theorem set_apikey_blank_noop_witness :
    set_api_key vFix (some "U1") (some "   ") ⟨[("key:U1", "old")], []⟩ =
      (("Usage: /set-apikey YOUR_KEY", 200), ⟨[("key:U1", "old")], []⟩) := by
  exact set_apikey_blank_noop vFix (some "U1") (some "   ") ⟨[("key:U1", "old")], []⟩
    rfl (by decide)
